import Mathlib

/-!
Verification development for the x402 payment facilitator (Base/EVM and
Solana backends, Express orchestrator, Bazaar discovery registry).

The TypeScript sources are shallowly embedded as pure Lean functions.
Stateful or effectful steps (chain reads, signature checks, broadcasts,
clocks) are passed in explicitly as environment values; a thrown JS
exception is modelled as the `none` / error case of the corresponding
environment field, which the embedded control flow then routes exactly as
the source's try/catch structure does.

Numeric-string parsing: the payload fields value/validAfter/validBefore and
maxAmountRequired are decimal-integer strings (per the data model).  Both
JS `parseInt` and `BigInt` agree with plain decimal parsing on that domain,
so both are modelled by `decNat?` below.
-/

/-- Decimal-integer-string parser: models JS parseInt / BigInt on the
decimal-digit-string domain used by the protocol. Returns none when the
string is empty or holds a non-digit (where BigInt would throw). -/
def decNat? (s : String) : Option Nat :=
  if s.data ≠ [] ∧ s.data.all Char.isDigit then
    some (s.data.foldl (fun n c => n * 10 + (c.toNat - 48)) 0)
  else none

/-- ASCII lower-casing of one character, as JS toLowerCase acts on the
hex-address alphabet. -/
def lowerChar (c : Char) : Char :=
  if 'A' ≤ c ∧ c ≤ 'Z' then Char.ofNat (c.toNat + 32) else c

/-- Models String.prototype.toLowerCase on ASCII strings (addresses). -/
def strToLower (s : String) : String := ⟨s.data.map lowerChar⟩

/-- Character-list version of startsWith. -/
def charsStart : List Char → List Char → Bool
  | [], _ => true
  | _ :: _, [] => false
  | a :: as, b :: bs => a == b && charsStart as bs

/-- Character-list infix test (substring occurrence). -/
def charsInfixOf : List Char → List Char → Bool
  | pat, [] => pat.isEmpty
  | pat, s@(_ :: rest) => charsStart pat s || charsInfixOf pat rest

/-- Models String.prototype.includes. -/
def strIncludes (s pat : String) : Bool := charsInfixOf pat.data s.data

/-- Models String.prototype.startsWith. -/
def strStartsWith (s pat : String) : Bool := charsStart pat.data s.data

/-! ## Data model (src/types/index.ts) -/

/-- EIP-3009 authorization tuple (EvmAuthorization in src/types/index.ts);
all fields are strings exactly as in the source. The source field names
from and to are Lean keywords, hence the trailing underscore. -/
structure EvmAuthorization where
  from_ : String
  to_ : String
  value : String
  validAfter : String
  validBefore : String
  nonce : String
deriving DecidableEq

/-- EvmPaymentPayload: network plus signature/authorization payload. -/
structure EvmPaymentPayload where
  x402Version : Nat
  scheme : String
  network : String
  signature : String
  authorization : EvmAuthorization
deriving DecidableEq

/-- SolanaPaymentPayload: network plus an opaque serialized transaction. -/
structure SolanaPaymentPayload where
  x402Version : Nat
  scheme : String
  network : String
  transaction : String
deriving DecidableEq

/-- PaymentRequirements (src/types/index.ts). -/
structure PaymentRequirements where
  scheme : String
  network : String
  maxAmountRequired : String
  resource : String
  description : String
  mimeType : String
  payTo : String
  maxTimeoutSeconds : Nat
  asset : String
deriving DecidableEq

/-- VerifyResponse; absent optional fields are `none`. -/
structure VerifyResponse where
  isValid : Bool
  invalidReason : Option String
  payer : Option String
deriving DecidableEq

/-- SettleResponse; absent optional fields are `none`. -/
structure SettleResponse where
  success : Bool
  transaction : Option String
  network : Option String
  errorReason : Option String
  payer : Option String
deriving DecidableEq

/-! ## Base (EVM) facilitator (src/base/index.ts) -/

/-- getChainId: maps the supported EVM network identifiers to a chain id,
throwing (none) otherwise. -/
def getChainId (network : String) : Option Nat :=
  if network = "base" ∨ network = "eip155:8453" then some 8453
  else if network = "base-sepolia" ∨ network = "eip155:84532" then some 84532
  else none

/-- BaseFacilitator construction state: rpcUrl, optional funding key and a
configured chain id. -/
structure BaseFacilitator where
  rpcUrl : String
  privateKey : Option String
  chainId : Nat
deriving DecidableEq

/-- Environment for one EVM verify call: the clock and the outcomes of the
three effectful steps. `none` in a field means the corresponding call threw
(signature library fault, RPC fault), landing in the catch-all. -/
structure EvmChainEnv where
  now : Nat
  sigCheck : Option Bool
  balanceOf : Option Nat
  authState : Option Bool
deriving DecidableEq

/-- The catch-all result of BaseFacilitator.verify: no payer field. -/
def unexpectedErrResp : VerifyResponse :=
  { isValid := false, invalidReason := some "unexpected_error", payer := none }

/-- BaseFacilitator.verify (src/base/index.ts lines 118-239): ordered checks
timing, amount, recipient, signature, balance, nonce-replay, with every
fault normalized to unexpected_error by the enclosing try/catch. -/
def BaseFacilitator.verify (_self : BaseFacilitator) (p : EvmPaymentPayload)
    (req : PaymentRequirements) (env : EvmChainEnv) : VerifyResponse :=
  match getChainId p.network with
  | none => unexpectedErrResp
  | some _chainId =>
    let a := p.authorization
    -- 1. timing: now < parseInt(validAfter) / now > parseInt(validBefore)
    if (match decNat? a.validAfter with | some va => decide (env.now < va) | none => false) then
      { isValid := false, invalidReason := some "payment_expired", payer := some a.from_ }
    else if (match decNat? a.validBefore with | some vb => decide (vb < env.now) | none => false) then
      { isValid := false, invalidReason := some "payment_expired", payer := some a.from_ }
    -- 2. amount: exact string comparison
    else if a.value ≠ req.maxAmountRequired then
      { isValid := false, invalidReason := some "amount_mismatch", payer := some a.from_ }
    -- 3. recipient: case-insensitive comparison
    else if strToLower a.to_ ≠ strToLower req.payTo then
      { isValid := false, invalidReason := some "recipient_mismatch", payer := some a.from_ }
    else
      -- 4. signature (BigInt conversions happen here; malformed decimals throw)
      match decNat? a.value, decNat? a.validAfter, decNat? a.validBefore, env.sigCheck with
      | some v, some _, some _, some sigOk =>
        if !sigOk then
          { isValid := false, invalidReason := some "invalid_signature", payer := some a.from_ }
        else
          -- 5. balance read
          match env.balanceOf with
          | none => unexpectedErrResp
          | some bal =>
            if bal < v then
              { isValid := false, invalidReason := some "insufficient_funds", payer := some a.from_ }
            else
              -- 6. replay: authorizationState(from, nonce)
              match env.authState with
              | none => unexpectedErrResp
              | some used =>
                if used then
                  { isValid := false, invalidReason := some "invalid_payload", payer := some a.from_ }
                else
                  { isValid := true, invalidReason := none, payer := some a.from_ }
      | _, _, _, _ => unexpectedErrResp

/-- Environment for the EVM settlement write: the transferWithAuthorization
broadcast (none = writeContract threw) and the awaited receipt (none =
waitForTransactionReceipt threw, some b = receipt with status success = b). -/
structure EvmWriteEnv where
  txHash : Option String
  receipt : Option Bool
deriving DecidableEq

/-- BaseFacilitator.settle (src/base/index.ts lines 244-338): funding-key
precondition, full re-verify, relayed write, receipt mapping; all faults
map to settlement_failed. -/
def BaseFacilitator.settle (self : BaseFacilitator) (p : EvmPaymentPayload)
    (req : PaymentRequirements) (env : EvmChainEnv) (w : EvmWriteEnv) : SettleResponse :=
  match self.privateKey with
  | none =>
    { success := false, transaction := none, network := some p.network,
      errorReason := some "settlement_failed", payer := none }
  | some _ =>
    let verification := BaseFacilitator.verify self p req env
    if verification.isValid = false then
      { success := false, transaction := none, network := some p.network,
        errorReason := verification.invalidReason, payer := verification.payer }
    else
      match w.txHash with
      | none =>
        { success := false, transaction := none, network := some p.network,
          errorReason := some "settlement_failed", payer := none }
      | some hash =>
        match w.receipt with
        | none =>
          { success := false, transaction := none, network := some p.network,
            errorReason := some "settlement_failed", payer := none }
        | some true =>
          { success := true, transaction := some hash, network := some p.network,
            errorReason := none, payer := some p.authorization.from_ }
        | some false =>
          { success := false, transaction := some hash, network := some p.network,
            errorReason := some "settlement_failed", payer := some p.authorization.from_ }

/-! ## Solana facilitator (src/solana/index.ts) -/

/-- SolanaFacilitator state: the funding keypair, represented by the
base58 public key when configured (none when absent or unparsable). -/
structure SolanaFacilitator where
  keypair : Option String
deriving DecidableEq

/-- USDC mint table keyed by the four supported Solana network ids. -/
def usdcMint? (network : String) : Option String :=
  if network = "solana" then some "EPjFWdd5AufqSSqeM2qN1xzybapC8G4wEGGkZwyTDt1v"
  else if network = "solana-devnet" then some "4zMMC9srt5Ri5X14GAgXhaHii3GnPAEERYPJgZJDncDU"
  else if network = "solana:5eykt4UsFv8P8NJdTREpY1vzqKqZKvdp" then
    some "EPjFWdd5AufqSSqeM2qN1xzybapC8G4wEGGkZwyTDt1v"
  else if network = "solana:EtWTRABZaYq6iMfeYKouRu166VU2xqa1" then
    some "4zMMC9srt5Ri5X14GAgXhaHii3GnPAEERYPJgZJDncDU"
  else none

/-- Decode environment for the opaque serialized transaction:
versionedPayer = some p means VersionedTransaction.deserialize succeeds and
staticAccountKeys[0] is p; none means that path throws.  legacyDecode =
some fp means Transaction.from succeeds with feePayer fp (an Option since
feePayer may be unset); none means Transaction.from throws. -/
structure SolDecodeEnv where
  versionedPayer : Option String
  legacyDecode : Option (Option String)
deriving DecidableEq

/-- Outcome of the getAccount read on the payer's associated token account.
The source wraps this read in a try/catch that cannot distinguish a missing
account from an RPC fault; the model keeps the cases separate so the
mapping itself is visible. -/
inductive SolAccountRead where
  | ok (amount : Nat)
  | notFound
  | fault
deriving DecidableEq

/-- Payer extraction in SolanaFacilitator.verify: versioned decode first,
legacy fallback inside the catch; if the legacy decode also throws the
exception escapes to the outer catch (modelled as the error case). -/
def solPayer (d : SolDecodeEnv) : Except Unit String :=
  match d.versionedPayer with
  | some p => Except.ok p
  | none =>
    match d.legacyDecode with
    | some fp => Except.ok (fp.getD "")
    | none => Except.error ()

/-- Balance stage of SolanaFacilitator.verify once a nonempty payer and a
known mint exist: the inner try/catch returns insufficient_funds on any
throw from the getAccount read (missing account or RPC fault alike), and
the BigInt parse of maxAmountRequired also happens inside it. -/
def solVerifyBalance (payer : String) (req : PaymentRequirements)
    (acct : SolAccountRead) : VerifyResponse :=
  match acct with
  | SolAccountRead.fault =>
    { isValid := false, invalidReason := some "insufficient_funds", payer := some payer }
  | SolAccountRead.notFound =>
    { isValid := false, invalidReason := some "insufficient_funds", payer := some payer }
  | SolAccountRead.ok amt =>
    match decNat? req.maxAmountRequired with
    | none =>
      { isValid := false, invalidReason := some "insufficient_funds", payer := some payer }
    | some required =>
      if amt < required then
        { isValid := false, invalidReason := some "insufficient_funds", payer := some payer }
      else
        { isValid := true, invalidReason := none, payer := some payer }

/-- SolanaFacilitator.verify (src/solana/index.ts lines 264-342): decode
with fallback, empty-payer check, mint lookup, balance read. -/
def SolanaFacilitator.verify (_self : SolanaFacilitator) (p : SolanaPaymentPayload)
    (req : PaymentRequirements) (d : SolDecodeEnv) (acct : SolAccountRead) : VerifyResponse :=
  match solPayer d with
  | Except.error _ => unexpectedErrResp
  | Except.ok payer =>
    if payer = "" then
      { isValid := false, invalidReason := some "invalid_payload", payer := none }
    else
      match usdcMint? p.network with
      | none =>
        { isValid := false, invalidReason := some "unsupported_network", payer := some payer }
      | some _ => solVerifyBalance payer req acct

/-- Outcome of the versioned broadcast attempt inside settle's inner try:
deserialize may throw (decodeFail), sendTransaction may throw (sendFail),
or the send returns a signature. -/
inductive VersionedAttempt where
  | decodeFail
  | sendFail
  | sent (sig : String)
deriving DecidableEq

/-- Broadcast/confirmation environment for SolanaFacilitator.settle.
legacySend models sendAndConfirmTransaction (none = throws); confirm models
confirmTransaction (none = throws, some true = confirmation carries an
execution error, some false = clean confirmation). -/
structure SolSettleEnv where
  vAttempt : VersionedAttempt
  legacySend : Option String
  confirm : Option Bool
deriving DecidableEq

/-- One observable broadcast performed by settle: either the versioned
transaction exactly as deserialized from the client bytes, or a legacy
broadcast with the feePayer it carries and the signer list handed to
sendAndConfirmTransaction (which signs with those signers). -/
inductive SolBroadcast where
  | versioned
  | legacy (feePayer : Option String) (signers : List String)
deriving DecidableEq

/-- Failure response from the outer catch of settle (no transaction id). -/
def solSettleFailedNoTx (network : String) : SettleResponse :=
  { success := false, transaction := none, network := some network,
    errorReason := some "settlement_failed", payer := none }

/-- Shared confirmation tail of settle: confirmTransaction result mapping. -/
def solAfterSend (network : String) (payer : Option String) (confirm : Option Bool)
    (sig : String) : SettleResponse :=
  match confirm with
  | none => solSettleFailedNoTx network
  | some true =>
    { success := false, transaction := some sig, network := some network,
      errorReason := some "settlement_failed", payer := payer }
  | some false =>
    { success := true, transaction := some sig, network := some network,
      errorReason := none, payer := payer }

/-- Legacy broadcast path of settle (the inner catch): re-decode with
Transaction.from, set the facilitator keypair as feePayer when the decoded
transaction lacks one, and hand the keypair to sendAndConfirmTransaction as
a signer. Returns the response together with the broadcasts performed. -/
def solLegacyPath (keypair : Option String) (network : String) (payer : Option String)
    (legacyDecode : Option (Option String)) (s : SolSettleEnv) :
    SettleResponse × List SolBroadcast :=
  match legacyDecode with
  | none => (solSettleFailedNoTx network, [])
  | some fp =>
    let fp' := if keypair.isSome ∧ fp = none then keypair else fp
    let signers := match keypair with | some k => [k] | none => []
    match s.legacySend with
    | none => (solSettleFailedNoTx network, [SolBroadcast.legacy fp' signers])
    | some sig => (solAfterSend network payer s.confirm sig, [SolBroadcast.legacy fp' signers])

/-- SolanaFacilitator.settle (src/solana/index.ts lines 347-433): full
re-verify, versioned broadcast with legacy fallback on any throw, blocking
confirmation, result mapping. The second component lists the broadcasts
that reached the ledger, in order. -/
def SolanaFacilitator.settle (self : SolanaFacilitator) (p : SolanaPaymentPayload)
    (req : PaymentRequirements) (d : SolDecodeEnv) (acct : SolAccountRead)
    (s : SolSettleEnv) : SettleResponse × List SolBroadcast :=
  let verification := SolanaFacilitator.verify self p req d acct
  if verification.isValid = false then
    ({ success := false, transaction := none, network := some p.network,
       errorReason := verification.invalidReason, payer := verification.payer }, [])
  else
    match s.vAttempt with
    | VersionedAttempt.sent sig =>
      (solAfterSend p.network verification.payer s.confirm sig, [SolBroadcast.versioned])
    | VersionedAttempt.sendFail =>
      let r := solLegacyPath self.keypair p.network verification.payer d.legacyDecode s
      (r.1, SolBroadcast.versioned :: r.2)
    | VersionedAttempt.decodeFail =>
      solLegacyPath self.keypair p.network verification.payer d.legacyDecode s

/-! ## Orchestrator network resolution (src/index.ts) -/

/-- isEvmNetwork: substring and URN patterns for the EVM family. -/
def isEvmNetwork (network : String) : Bool :=
  strIncludes network "base" || strStartsWith network "eip155:"

/-- isSolanaNetwork: substring pattern for the Solana family. -/
def isSolanaNetwork (network : String) : Bool :=
  strIncludes network "solana"

/-- Routing logic of the POST /verify handler: EVM family first, Solana
second, otherwise the structured unsupported_network response. The backend
results are passed in, so routing is visibly independent of them. -/
def routeVerify (network : String) (evmResult solResult : VerifyResponse) : VerifyResponse :=
  if isEvmNetwork network then evmResult
  else if isSolanaNetwork network then solResult
  else { isValid := false, invalidReason := some "unsupported_network", payer := none }

/-! ## Bazaar discovery registry (src/discovery/index.ts)

The in-memory Map is modelled as a list in insertion order, which is the
iteration order of a JS Map (updating an existing key keeps its position).
ISO lastUpdated timestamps are modelled by the epoch milliseconds they
denote, since Date parsing of ISO strings is order-isomorphic to it.
Metadata objects are modelled as ordered key/value lists with the JS object
spread as the merge. -/

/-- Metadata object: ordered association list of string keys to opaque
values. -/
abbrev MetaMap := List (String × String)

/-- JS object spread merge for two metadata objects: the left object's keys
in order with right-hand overrides, then the right object's fresh keys. -/
def spreadMerge (a b : MetaMap) : MetaMap :=
  (a.map fun kv =>
    match b.find? (fun kv2 => kv2.1 == kv.1) with
    | some kv2 => (kv.1, kv2.2)
    | none => kv)
  ++ b.filter fun kv2 => !(a.any fun kv => kv.1 == kv2.1)

/-- One element of a DiscoveredResource.accepts list. -/
structure AcceptEntry where
  scheme : String
  network : String
  amount : String
  asset : String
  payTo : String
deriving DecidableEq

/-- DiscoveredResource (src/types/index.ts). -/
structure DiscoveredResource where
  resource : String
  type : String
  x402Version : Nat
  accepts : List AcceptEntry
  lastUpdated : Nat
  metadata : Option MetaMap
deriving DecidableEq

/-- Bazaar info block as the extractor reads it: optional input and
optional output.example, both opaque. -/
structure BazaarInfo where
  input : Option String
  outputExample : Option String
deriving DecidableEq

/-- BazaarExtension with optional info and schema. -/
structure BazaarExtension where
  info : Option BazaarInfo
  schema : Option String
deriving DecidableEq

/-- The extensions object of PaymentRequirementsWithExtensions. -/
structure RequirementExtensions where
  bazaar : Option BazaarExtension
deriving DecidableEq

/-- PaymentRequirementsWithExtensions. -/
structure PaymentRequirementsX extends PaymentRequirements where
  extensions : Option RequirementExtensions
deriving DecidableEq

/-- extractDiscoveryInfo (src/discovery/index.ts lines 681-730): opt-in on
the bazaar extension, hardcoded type http, singleton accepts, metadata
assembled only when info or a nonempty description is present. `now` is
the Date.now clock at extraction time. -/
def extractDiscoveryInfo (x402Version : Nat) (req : PaymentRequirementsX)
    (now : Nat) : Option DiscoveredResource :=
  match req.extensions.bind (fun e => e.bazaar) with
  | none => none
  | some ext =>
    let metadata : Option MetaMap :=
      if ext.info.isSome ∨ req.description ≠ "" then
        some ((if req.description ≠ "" then [("description", req.description)] else [])
          ++ (match ext.info with
              | some i =>
                (match i.input with | some v => [("input", v)] | none => [])
                ++ (match i.outputExample with | some v => [("output", v)] | none => [])
              | none => [])
          ++ (match ext.schema with | some s => [("outputSchema", s)] | none => []))
      else none
    some { resource := req.resource, type := "http", x402Version := x402Version,
           accepts := [{ scheme := req.scheme, network := req.network,
                         amount := req.maxAmountRequired, asset := req.asset,
                         payTo := req.payTo }],
           lastUpdated := now, metadata := metadata }

/-- The merge key the registry uses for accepts entries: the string join
network ++ ":" ++ asset (which conflates distinct pairs whose join
collides). -/
def acceptKey (a : AcceptEntry) : String := a.network ++ ":" ++ a.asset

/-- registerResource (src/discovery/index.ts lines 735-762): update in
place when the resource URL exists (append accepts with unseen join keys,
computed against the pre-merge key set; max of versions; overwrite
lastUpdated; spread-merge metadata when the incoming resource has any),
otherwise append the resource as given. -/
def registerResource (reg : List DiscoveredResource) (r : DiscoveredResource) :
    List DiscoveredResource :=
  if reg.any (fun e => e.resource == r.resource) then
    reg.map fun e =>
      if e.resource == r.resource then
        let existingKeys := e.accepts.map acceptKey
        { e with
          accepts := e.accepts ++ r.accepts.filter (fun a => !(decide (acceptKey a ∈ existingKeys))),
          lastUpdated := r.lastUpdated,
          x402Version := max e.x402Version r.x402Version,
          metadata := match r.metadata with
            | none => e.metadata
            | some m => some (spreadMerge (e.metadata.getD []) m) }
      else e
  else reg ++ [r]

/-- catalogFromPayment (src/discovery/index.ts lines 767-776). -/
def catalogFromPayment (x402Version : Nat) (req : PaymentRequirementsX) (now : Nat)
    (reg : List DiscoveredResource) : List DiscoveredResource :=
  match extractDiscoveryInfo x402Version req now with
  | none => reg
  | some r => registerResource reg r

/-- DiscoveryListResponse. -/
structure DiscoveryListResponse where
  x402Version : Nat
  items : List DiscoveredResource
  limit : Nat
  offset : Nat
  total : Nat
deriving DecidableEq

/-- Descending stable sort by lastUpdated: models Array.prototype.sort
under the comparator on parsed dates (V8 sort is stable, and a stable sort
is uniquely determined by the comparator, so the stable insertionSort is an
exact model). -/
def sortByLastUpdated (items : List DiscoveredResource) : List DiscoveredResource :=
  items.insertionSort fun a b => b.lastUpdated ≤ a.lastUpdated

/-- listResources (src/discovery/index.ts lines 781-811): the type filter
runs only for a truthy (nonempty) type string, then the descending sort,
the pre-slice total, and the slice of length limit from offset. -/
def listResources (reg : List DiscoveredResource) (type : String) (limit offset : Nat) :
    DiscoveryListResponse :=
  let items1 := if type ≠ "" then reg.filter (fun r => r.type == type) else reg
  let sorted := sortByLastUpdated items1
  let total := sorted.length
  { x402Version := 2, items := (sorted.drop offset).take limit,
    limit := limit, offset := offset, total := total }

/-- Discovery side effect of the POST /verify handler (src/index.ts lines
536-542): on a valid verification the requirements are catalogued,
otherwise the registry is untouched. -/
def verifyHandlerCatalog (resp : VerifyResponse) (x402Version : Nat)
    (req : PaymentRequirementsX) (now : Nat) (reg : List DiscoveredResource) :
    List DiscoveredResource :=
  if resp.isValid then catalogFromPayment x402Version req now reg else reg

/-! ## Shared concrete sample values (used by witnesses and counterexamples) -/

/-- A well-formed sample authorization; recipient case differs from the
requirements to exercise the case-insensitive comparison. -/
def sampleAuth : EvmAuthorization :=
  { from_ := "0xaaa", to_ := "0xBBB", value := "100", validAfter := "10",
    validBefore := "20", nonce := "0x01" }

/-- A sample EVM payload on the base network. -/
def samplePayloadEvm : EvmPaymentPayload :=
  { x402Version := 1, scheme := "exact", network := "base", signature := "0xsig",
    authorization := sampleAuth }

/-- Sample requirements matching sampleAuth. -/
def sampleReq : PaymentRequirements :=
  { scheme := "exact", network := "base", maxAmountRequired := "100",
    resource := "https://api.example.com/a", description := "",
    mimeType := "application/json", payTo := "0xbbb", maxTimeoutSeconds := 60,
    asset := "0xusdc" }

/-- A fully healthy EVM chain environment for sampleAuth at time 15. -/
def sampleEnvOk : EvmChainEnv :=
  { now := 15, sigCheck := some true, balanceOf := some 100, authState := some false }

/-- A Base facilitator with no funding key configured. -/
def sampleBaseNoKey : BaseFacilitator :=
  { rpcUrl := "https://rpc.example", privateKey := none, chainId := 8453 }

/-- A Base facilitator with a funding key configured. -/
def sampleBaseKeyed : BaseFacilitator :=
  { rpcUrl := "https://rpc.example", privateKey := some "0xkey", chainId := 8453 }

/-- An EVM chain environment in which the sample authorization is expired. -/
def sampleEnvExpired : EvmChainEnv :=
  { now := 25, sigCheck := some true, balanceOf := some 100, authState := some false }

/-- A sample Solana payload on the solana network. -/
def sampleSolPayload : SolanaPaymentPayload :=
  { x402Version := 1, scheme := "exact", network := "solana", transaction := "dHJhbnNhY3Rpb24=" }

/-- Sample requirements for the Solana payload. -/
def sampleSolReq : PaymentRequirements :=
  { scheme := "exact", network := "solana", maxAmountRequired := "100",
    resource := "https://api.example.com/s", description := "",
    mimeType := "application/json", payTo := "RecvY", maxTimeoutSeconds := 60,
    asset := "EPjFWdd5AufqSSqeM2qN1xzybapC8G4wEGGkZwyTDt1v" }

/-- A decode environment whose versioned decode succeeds with payer PayerX. -/
def sampleSolDecodeV : SolDecodeEnv :=
  { versionedPayer := some "PayerX", legacyDecode := some (some "PayerX") }

/-- Solana facilitator without a funding keypair. -/
def sampleSolNoKey : SolanaFacilitator := { keypair := none }

/-- Solana facilitator with a funding keypair whose public key is FacilKey. -/
def sampleSolKeyed : SolanaFacilitator := { keypair := some "FacilKey" }

/-- The sample payload retargeted at an eip155 chain the code does not
support. -/
def samplePayloadEip1 : EvmPaymentPayload :=
  { samplePayloadEvm with network := "eip155:1" }

/-- A decode environment for a legacy-format transaction: the versioned
decode throws and the legacy decode succeeds with feePayer PayerX. -/
def solDecodeLegacyOnly : SolDecodeEnv :=
  { versionedPayer := none, legacyDecode := some (some "PayerX") }

/-- The registry invariant with the merge key the code actually uses: the
resource URLs are pairwise distinct, and each entry's accepts list has
pairwise distinct network-colon-asset join keys. -/
abbrev RegInvariant (reg : List DiscoveredResource) : Prop :=
  (reg.map fun e => e.resource).Nodup ∧ ∀ e ∈ reg, (e.accepts.map acceptKey).Nodup

/-- An accepts entry used to build a duplicate-pair resource. -/
def dupAccept : AcceptEntry :=
  { scheme := "exact", network := "solana", amount := "100", asset := "mintA",
    payTo := "Recv" }

/-- A resource whose accepts list repeats one (network, asset) pair. -/
def dupRes : DiscoveredResource :=
  { resource := "https://r.example/dup", type := "http", x402Version := 1,
    accepts := [dupAccept, dupAccept], lastUpdated := 100, metadata := none }

/-- Requirements whose (network, asset) pair is (net, x:y). -/
def collideReqA : PaymentRequirementsX :=
  { scheme := "exact", network := "net", maxAmountRequired := "100",
    resource := "https://r.example/collide", description := "", mimeType := "",
    payTo := "Recv", maxTimeoutSeconds := 60, asset := "x:y",
    extensions := some { bazaar := some { info := none, schema := none } } }

/-- Requirements for the same resource with the distinct pair (net:x, y),
whose join key collides with collideReqA's. -/
def collideReqB : PaymentRequirementsX :=
  { scheme := "exact", network := "net:x", maxAmountRequired := "100",
    resource := "https://r.example/collide", description := "", mimeType := "",
    payTo := "Recv", maxTimeoutSeconds := 60, asset := "y",
    extensions := some { bazaar := some { info := none, schema := none } } }

/-- Requirements for the merge example: version 2, pair (base, 0xusdc), a
description feeding metadata. -/
def twoReqA : PaymentRequirementsX :=
  { scheme := "exact", network := "base", maxAmountRequired := "100",
    resource := "https://api.example.com/t", description := "d1", mimeType := "",
    payTo := "0xbbb", maxTimeoutSeconds := 60, asset := "0xusdc",
    extensions := some { bazaar := some { info := none, schema := none } } }

/-- Bazaar info block for twoReqB: an input but no output example. -/
def twoReqBInfo : BazaarInfo := { input := some "inp", outputExample := none }

/-- Requirements for the merge example: version 1, the fresh pair
(solana, mintA), bazaar info feeding metadata. -/
def twoReqB : PaymentRequirementsX :=
  { scheme := "exact", network := "solana", maxAmountRequired := "100",
    resource := "https://api.example.com/t", description := "", mimeType := "",
    payTo := "0xbbb", maxTimeoutSeconds := 60, asset := "mintA",
    extensions := some { bazaar := some { info := some twoReqBInfo, schema := none } } }

/-- The single entry that cataloging twoReqA then twoReqB must produce:
both pairs in the accepts list, the maximum version, the later lastUpdated,
and the shallow-merged metadata. -/
def twoMergedEntry : DiscoveredResource :=
  { resource := "https://api.example.com/t", type := "http", x402Version := 2,
    accepts := [{ scheme := "exact", network := "base", amount := "100",
                  asset := "0xusdc", payTo := "0xbbb" },
                { scheme := "exact", network := "solana", amount := "100",
                  asset := "mintA", payTo := "0xbbb" }],
    lastUpdated := 200,
    metadata := some [("description", "d1"), ("input", "inp")] }

/-- A registered entry for the pagination examples, lastUpdated 100. -/
def pageEntry1 : DiscoveredResource :=
  { resource := "https://r.example/p1", type := "http", x402Version := 1,
    accepts := [{ scheme := "exact", network := "base", amount := "100",
                  asset := "0xusdc", payTo := "Recv" }],
    lastUpdated := 100, metadata := none }

/-- A registered entry for the pagination examples, lastUpdated 300. -/
def pageEntry2 : DiscoveredResource :=
  { pageEntry1 with resource := "https://r.example/p2", lastUpdated := 300 }

/-- A registered entry for the pagination examples, lastUpdated 200. -/
def pageEntry3 : DiscoveredResource :=
  { pageEntry1 with resource := "https://r.example/p3", lastUpdated := 200 }

/-- The registry holding the three pagination-example entries, built by
three register operations. -/
def pageReg : List DiscoveredResource :=
  registerResource (registerResource (registerResource [] pageEntry1) pageEntry2) pageEntry3

/-- The sample requirements extended with a bazaar extension, so that a
successful verification catalogs them. -/
def sampleReqX : PaymentRequirementsX :=
  { toPaymentRequirements := sampleReq,
    extensions := some { bazaar := some { info := none, schema := none } } }

/-- Every registry entry has type http. -/
abbrev AllHttp (reg : List DiscoveredResource) : Prop := ∀ e ∈ reg, e.type = "http"

/-! ## C1 -/

/-- C1: for an Account-Authorization payload on a supported network whose
decimal fields parse and whose three chain interactions return (rather than
fault), verify is exactly the ordered cascade: inclusive timing window
first (payment_expired), then exact string amount (amount_mismatch), then
case-insensitive recipient (recipient_mismatch), then signature
(invalid_signature), then balance at least value (insufficient_funds),
then nonce replay (invalid_payload); when all pass the result is
isValid true with payer from. Earlier failures mask later ones. -/
theorem evm_verify_ordered_checks
    (self : BaseFacilitator) (p : EvmPaymentPayload) (req : PaymentRequirements)
    (env : EvmChainEnv) (va vb v bal : Nat) (s u : Bool)
    (hcid : (getChainId p.network).isSome = true)
    (hva : decNat? p.authorization.validAfter = some va)
    (hvb : decNat? p.authorization.validBefore = some vb)
    (hv : decNat? p.authorization.value = some v)
    (hsig : env.sigCheck = some s)
    (hbal : env.balanceOf = some bal)
    (hnonce : env.authState = some u) :
    BaseFacilitator.verify self p req env =
      if env.now < va ∨ vb < env.now then
        { isValid := false, invalidReason := some "payment_expired",
          payer := some p.authorization.from_ }
      else if p.authorization.value ≠ req.maxAmountRequired then
        { isValid := false, invalidReason := some "amount_mismatch",
          payer := some p.authorization.from_ }
      else if strToLower p.authorization.to_ ≠ strToLower req.payTo then
        { isValid := false, invalidReason := some "recipient_mismatch",
          payer := some p.authorization.from_ }
      else if s = false then
        { isValid := false, invalidReason := some "invalid_signature",
          payer := some p.authorization.from_ }
      else if bal < v then
        { isValid := false, invalidReason := some "insufficient_funds",
          payer := some p.authorization.from_ }
      else if u = true then
        { isValid := false, invalidReason := some "invalid_payload",
          payer := some p.authorization.from_ }
      else
        { isValid := true, invalidReason := none,
          payer := some p.authorization.from_ } := by
  obtain ⟨cid, hc⟩ := Option.isSome_iff_exists.mp hcid
  unfold BaseFacilitator.verify
  rw [hc]
  simp only [hva, hvb, hv, hsig, hbal, hnonce]
  by_cases h1 : env.now < va
  · simp [h1]
  by_cases h2 : vb < env.now
  · simp [h1, h2]
  simp only [h1, h2, decide_eq_true_eq, if_false, decide_False, or_self, if_neg,
    not_false_eq_true, or_iff_not_imp_left]
  by_cases h3 : p.authorization.value = req.maxAmountRequired
  · simp only [h3, ite_not, if_pos rfl, ne_eq, not_true_eq_false, if_false]
    by_cases h4 : strToLower p.authorization.to_ = strToLower req.payTo
    · simp only [h4, ne_eq, not_true_eq_false, if_false, if_pos rfl]
      cases s
      · simp
      · cases u <;> by_cases h5 : bal < v <;> simp [h5]
    · simp [h4]
  · simp [h1, h2, h3]

/-- Witness for C1: the healthy sample inputs satisfy every hypothesis and
the theorem computes the valid result with payer from. -/
theorem evm_verify_ordered_checks_witness :
    BaseFacilitator.verify sampleBaseNoKey samplePayloadEvm sampleReq sampleEnvOk =
      { isValid := true, invalidReason := none, payer := some "0xaaa" } := by
  rw [evm_verify_ordered_checks sampleBaseNoKey samplePayloadEvm sampleReq sampleEnvOk
    10 20 100 100 true false (by decide) (by decide) (by decide) (by decide) rfl rfl rfl]
  decide

/-! ## C2 -/

/-- C2: on either backend, settle can only succeed when a standalone verify
of the same payload in the same environment is valid; and whenever the
re-verification inside settle fails (for the EVM backend: once the
funding-key precondition admits it to the verification step), settle
returns success false carrying the verification's own invalidReason and
payer, independent of the write environment and, on Solana, with an empty
broadcast trace (no ledger write). -/
theorem settle_requires_verify :
    (∀ (f : BaseFacilitator) (p : EvmPaymentPayload) (req : PaymentRequirements)
       (env : EvmChainEnv) (w : EvmWriteEnv),
       ((BaseFacilitator.settle f p req env w).success = true →
         (BaseFacilitator.verify f p req env).isValid = true)
       ∧ (f.privateKey.isSome = true →
           (BaseFacilitator.verify f p req env).isValid = false →
           BaseFacilitator.settle f p req env w =
             { success := false, transaction := none, network := some p.network,
               errorReason := (BaseFacilitator.verify f p req env).invalidReason,
               payer := (BaseFacilitator.verify f p req env).payer }))
    ∧ (∀ (sf : SolanaFacilitator) (sp : SolanaPaymentPayload) (sreq : PaymentRequirements)
         (d : SolDecodeEnv) (acct : SolAccountRead) (senv : SolSettleEnv),
         ((SolanaFacilitator.settle sf sp sreq d acct senv).1.success = true →
           (SolanaFacilitator.verify sf sp sreq d acct).isValid = true)
         ∧ ((SolanaFacilitator.verify sf sp sreq d acct).isValid = false →
             SolanaFacilitator.settle sf sp sreq d acct senv =
               ({ success := false, transaction := none, network := some sp.network,
                  errorReason := (SolanaFacilitator.verify sf sp sreq d acct).invalidReason,
                  payer := (SolanaFacilitator.verify sf sp sreq d acct).payer }, []))) := by
  constructor
  · intro f p req env w
    cases hpk : f.privateKey with
    | none =>
      refine ⟨?_, ?_⟩
      · intro h
        simp [BaseFacilitator.settle, hpk] at h
      · intro hs
        simp [hpk] at hs
    | some k =>
      by_cases hv : (BaseFacilitator.verify f p req env).isValid = true
      · refine ⟨fun _ => hv, ?_⟩
        intro _ hvf
        rw [hv] at hvf
        cases hvf
      · have hvf : (BaseFacilitator.verify f p req env).isValid = false :=
          Bool.eq_false_iff.mpr hv
        refine ⟨?_, ?_⟩
        · intro h
          simp [BaseFacilitator.settle, hpk, hvf] at h
        · intro _ _
          simp [BaseFacilitator.settle, hpk, hvf]
  · intro sf sp sreq d acct senv
    by_cases hv : (SolanaFacilitator.verify sf sp sreq d acct).isValid = true
    · refine ⟨fun _ => hv, ?_⟩
      intro hvf
      rw [hv] at hvf
      cases hvf
    · have hvf : (SolanaFacilitator.verify sf sp sreq d acct).isValid = false :=
        Bool.eq_false_iff.mpr hv
      refine ⟨?_, ?_⟩
      · intro h
        simp [SolanaFacilitator.settle, hvf] at h
      · intro _
        simp [SolanaFacilitator.settle, hvf]

/-- Witness for C2: with a keyed facilitator and an expired authorization,
the EVM settle returns the verification's own payment_expired reason and
payer without writing; with a low Solana balance, settle returns
insufficient_funds with an empty broadcast trace. -/
theorem settle_requires_verify_witness :
    BaseFacilitator.settle sampleBaseKeyed samplePayloadEvm sampleReq sampleEnvExpired
      { txHash := some "0xhash", receipt := some true } =
      { success := false, transaction := none, network := some "base",
        errorReason := some "payment_expired", payer := some "0xaaa" }
    ∧ SolanaFacilitator.settle sampleSolNoKey sampleSolPayload sampleSolReq
        sampleSolDecodeV (SolAccountRead.ok 50)
        { vAttempt := VersionedAttempt.sent "sig1", legacySend := some "sig2",
          confirm := some false } =
      ({ success := false, transaction := none, network := some "solana",
         errorReason := some "insufficient_funds", payer := some "PayerX" }, []) := by
  constructor
  · have h := (settle_requires_verify.1 sampleBaseKeyed samplePayloadEvm sampleReq
      sampleEnvExpired { txHash := some "0xhash", receipt := some true }).2
      (by decide) (by decide)
    rw [h]
    decide
  · have h := (settle_requires_verify.2 sampleSolNoKey sampleSolPayload sampleSolReq
      sampleSolDecodeV (SolAccountRead.ok 50)
      { vAttempt := VersionedAttempt.sent "sig1", legacySend := some "sig2",
        confirm := some false }).2 (by decide)
    rw [h]
    decide

/-! ## C3 -/

/-- Counterexample for C3: a fault during the balance read (the getAccount
throw that an RPC outage produces) is mapped by the inner catch to
insufficient_funds, not unexpected_error; and a transaction that decodes
under neither format escapes to the outer catch and yields
unexpected_error, not invalid_payload. -/
theorem sol_verify_reason_claim_false :
    SolanaFacilitator.verify sampleSolNoKey sampleSolPayload sampleSolReq
        sampleSolDecodeV SolAccountRead.fault =
      { isValid := false, invalidReason := some "insufficient_funds", payer := some "PayerX" }
    ∧ SolanaFacilitator.verify sampleSolNoKey sampleSolPayload sampleSolReq
        { versionedPayer := none, legacyDecode := none } (SolAccountRead.ok 100) =
      { isValid := false, invalidReason := some "unexpected_error", payer := none } := by
  decide

/-- C3 as amended: both-decoders-throw yields unexpected_error; a legacy
decode with no resolvable fee payer yields invalid_payload; and once a
payer and a known mint exist, a missing token account, a balance-read
fault, and a balance below maxAmountRequired all yield insufficient_funds
(the inner catch does not separate faults from missing accounts), while a
sufficient balance verifies with that payer. -/
theorem sol_verify_reasons
    (sf : SolanaFacilitator) (p : SolanaPaymentPayload) (req : PaymentRequirements)
    (d : SolDecodeEnv) (acct : SolAccountRead) :
    (d.versionedPayer = none → d.legacyDecode = none →
      SolanaFacilitator.verify sf p req d acct = unexpectedErrResp)
    ∧ (d.versionedPayer = none → d.legacyDecode = some none →
        SolanaFacilitator.verify sf p req d acct =
          { isValid := false, invalidReason := some "invalid_payload", payer := none })
    ∧ (∀ payer, payer ≠ "" → solPayer d = Except.ok payer →
        (usdcMint? p.network).isSome = true →
        ((acct = SolAccountRead.notFound ∨ acct = SolAccountRead.fault →
           SolanaFacilitator.verify sf p req d acct =
             { isValid := false, invalidReason := some "insufficient_funds",
               payer := some payer })
         ∧ (∀ amt required, acct = SolAccountRead.ok amt →
             decNat? req.maxAmountRequired = some required → amt < required →
             SolanaFacilitator.verify sf p req d acct =
               { isValid := false, invalidReason := some "insufficient_funds",
                 payer := some payer })
         ∧ (∀ amt required, acct = SolAccountRead.ok amt →
             decNat? req.maxAmountRequired = some required → required ≤ amt →
             SolanaFacilitator.verify sf p req d acct =
               { isValid := true, invalidReason := none, payer := some payer }))) := by
  refine ⟨?_, ?_, ?_⟩
  · intro h1 h2
    simp [SolanaFacilitator.verify, solPayer, h1, h2]
  · intro h1 h2
    simp [SolanaFacilitator.verify, solPayer, h1, h2]
  · intro payer hne hp hmint
    obtain ⟨mint, hm⟩ := Option.isSome_iff_exists.mp hmint
    refine ⟨?_, ?_, ?_⟩
    · rintro (rfl | rfl) <;>
        simp [SolanaFacilitator.verify, hp, hne, hm, solVerifyBalance]
    · rintro amt required rfl hreq hlt
      simp [SolanaFacilitator.verify, hp, hne, hm, solVerifyBalance, hreq, hlt]
    · rintro amt required rfl hreq hge
      simp [SolanaFacilitator.verify, hp, hne, hm, solVerifyBalance, hreq,
        Nat.not_lt.mpr hge]

/-- Witness for C3 (amended): at the sample inputs the fault case computes
insufficient_funds with the decoded payer, and the healthy case verifies. -/
theorem sol_verify_reasons_witness :
    SolanaFacilitator.verify sampleSolNoKey sampleSolPayload sampleSolReq
        sampleSolDecodeV SolAccountRead.fault =
      { isValid := false, invalidReason := some "insufficient_funds", payer := some "PayerX" }
    ∧ SolanaFacilitator.verify sampleSolNoKey sampleSolPayload sampleSolReq
        sampleSolDecodeV (SolAccountRead.ok 250) =
      { isValid := true, invalidReason := none, payer := some "PayerX" } := by
  constructor
  · exact ((sol_verify_reasons sampleSolNoKey sampleSolPayload sampleSolReq
      sampleSolDecodeV SolAccountRead.fault).2.2 "PayerX" (by decide) rfl
      (by decide)).1 (Or.inr rfl)
  · exact ((sol_verify_reasons sampleSolNoKey sampleSolPayload sampleSolReq
      sampleSolDecodeV (SolAccountRead.ok 250)).2.2 "PayerX" (by decide) rfl
      (by decide)).2.2 250 100 rfl (by decide) (by decide)

/-! ## C4 -/

/-- Counterexample for C4: the string basesolana matches both families'
patterns, so the vocabularies are not disjoint over identifiers; and the
unknown URN eip155:1 matches the EVM pattern, is routed to the EVM backend,
and verify there returns unexpected_error, not the claimed
unsupported_network. -/
theorem network_resolution_claim_false :
    isEvmNetwork "basesolana" = true
    ∧ isSolanaNetwork "basesolana" = true
    ∧ isEvmNetwork "eip155:1" = true
    ∧ routeVerify "eip155:1"
        (BaseFacilitator.verify sampleBaseNoKey samplePayloadEip1 sampleReq sampleEnvOk)
        { isValid := false, invalidReason := some "invalid_payload", payer := none } =
      BaseFacilitator.verify sampleBaseNoKey samplePayloadEip1 sampleReq sampleEnvOk
    ∧ BaseFacilitator.verify sampleBaseNoKey samplePayloadEip1 sampleReq sampleEnvOk =
      { isValid := false, invalidReason := some "unexpected_error", payer := none } := by
  decide

/-- C4 as amended: base and eip155:8453 resolve to the EVM family only and
to the same chain id 8453 (hence the same backend and funding address);
every supported identifier matches exactly its own family's pattern; an
identifier matching neither pattern gets the structured unsupported_network
response from the orchestrator; but the two patterns can both match an
arbitrary string (EVM is simply checked first), and an eip155-prefixed
identifier outside the supported table is routed to the EVM backend whose
verify catches the unsupported-chain throw and returns unexpected_error,
never a raw fault. -/
theorem network_resolution_amended :
    (isEvmNetwork "base" = true ∧ isEvmNetwork "eip155:8453" = true
      ∧ isSolanaNetwork "base" = false ∧ isSolanaNetwork "eip155:8453" = false
      ∧ getChainId "base" = some 8453 ∧ getChainId "eip155:8453" = some 8453
      ∧ ∀ er sr, routeVerify "base" er sr = er ∧ routeVerify "eip155:8453" er sr = er)
    ∧ (∀ n er sr, isEvmNetwork n = false → isSolanaNetwork n = false →
        routeVerify n er sr =
          { isValid := false, invalidReason := some "unsupported_network", payer := none })
    ∧ (∀ n ∈ (["base", "base-sepolia", "eip155:8453", "eip155:84532"] : List String),
        isEvmNetwork n = true ∧ isSolanaNetwork n = false)
    ∧ (∀ n ∈ (["solana", "solana-devnet", "solana:5eykt4UsFv8P8NJdTREpY1vzqKqZKvdp",
               "solana:EtWTRABZaYq6iMfeYKouRu166VU2xqa1"] : List String),
        isSolanaNetwork n = true ∧ isEvmNetwork n = false)
    ∧ (∀ (self : BaseFacilitator) (p : EvmPaymentPayload) (req : PaymentRequirements)
         (env : EvmChainEnv), getChainId p.network = none →
        BaseFacilitator.verify self p req env = unexpectedErrResp) := by
  refine ⟨⟨by decide, by decide, by decide, by decide, by decide, by decide, ?_⟩,
    ?_, by decide, by decide, ?_⟩
  · intro er sr
    constructor
    · simp [routeVerify, show isEvmNetwork "base" = true by decide]
    · simp [routeVerify, show isEvmNetwork "eip155:8453" = true by decide]
  · intro n er sr h1 h2
    simp [routeVerify, h1, h2]
  · intro self p req env h
    simp [BaseFacilitator.verify, h]

/-- Witness for C4 (amended): bitcoin matches neither pattern and gets the
structured unsupported_network outcome. -/
theorem network_resolution_amended_witness :
    routeVerify "bitcoin" unexpectedErrResp unexpectedErrResp =
      { isValid := false, invalidReason := some "unsupported_network", payer := none } := by
  exact network_resolution_amended.2.1 "bitcoin" unexpectedErrResp unexpectedErrResp
    (by decide) (by decide)

/-! ## C5 -/

/-- Counterexample for C5: with no Solana funding keypair configured,
settle does not stop with settlement_failed; it re-verifies, broadcasts the
client's versioned transaction, and here even succeeds. Settlement is not
disabled for the Solana family by a missing key. -/
theorem missing_key_claim_false :
    SolanaFacilitator.settle { keypair := none } sampleSolPayload sampleSolReq
        sampleSolDecodeV (SolAccountRead.ok 100)
        { vAttempt := VersionedAttempt.sent "sig1", legacySend := none,
          confirm := some false } =
      ({ success := true, transaction := some "sig1", network := some "solana",
         errorReason := none, payer := some "PayerX" }, [SolBroadcast.versioned]) := by
  decide

/-- C5 as amended: for the EVM family a missing funding key makes settle
return settlement_failed for every chain and write environment (so before
any chain interaction), and verify ignores the facilitator configuration
entirely on both families; but for the Solana family settle proceeds
without a key, broadcasting the pre-signed transaction whenever the
versioned send goes through. -/
theorem missing_key_amended :
    (∀ (f : BaseFacilitator) (p : EvmPaymentPayload) (req : PaymentRequirements)
       (env : EvmChainEnv) (w : EvmWriteEnv), f.privateKey = none →
        BaseFacilitator.settle f p req env w =
          { success := false, transaction := none, network := some p.network,
            errorReason := some "settlement_failed", payer := none })
    ∧ (∀ (f f' : BaseFacilitator) (p : EvmPaymentPayload) (req : PaymentRequirements)
         (env : EvmChainEnv),
        BaseFacilitator.verify f p req env = BaseFacilitator.verify f' p req env)
    ∧ (∀ (sf sf' : SolanaFacilitator) (p : SolanaPaymentPayload)
         (req : PaymentRequirements) (d : SolDecodeEnv) (acct : SolAccountRead),
        SolanaFacilitator.verify sf p req d acct = SolanaFacilitator.verify sf' p req d acct)
    ∧ (∀ (p : SolanaPaymentPayload) (req : PaymentRequirements) (d : SolDecodeEnv)
         (acct : SolAccountRead) (senv : SolSettleEnv) (sig : String),
        (SolanaFacilitator.verify { keypair := none } p req d acct).isValid = true →
        senv.vAttempt = VersionedAttempt.sent sig →
        SolanaFacilitator.settle { keypair := none } p req d acct senv =
          (solAfterSend p.network
            (SolanaFacilitator.verify { keypair := none } p req d acct).payer
            senv.confirm sig, [SolBroadcast.versioned])) := by
  refine ⟨?_, ?_, ?_, ?_⟩
  · intro f p req env w h
    simp [BaseFacilitator.settle, h]
  · intro f f' p req env
    rfl
  · intro sf sf' p req d acct
    rfl
  · intro p req d acct senv sig hv hva
    simp [SolanaFacilitator.settle, hv, hva]

/-- Witness for C5 (amended): the keyless EVM settle fails with
settlement_failed at the sample inputs, and the keyless Solana settle
broadcasts the sample versioned transaction and succeeds. -/
theorem missing_key_amended_witness :
    BaseFacilitator.settle sampleBaseNoKey samplePayloadEvm sampleReq sampleEnvOk
        { txHash := some "0xhash", receipt := some true } =
      { success := false, transaction := none, network := some "base",
        errorReason := some "settlement_failed", payer := none }
    ∧ SolanaFacilitator.settle { keypair := none } sampleSolPayload sampleSolReq
        sampleSolDecodeV (SolAccountRead.ok 100)
        { vAttempt := VersionedAttempt.sent "sigW", legacySend := some "sigL",
          confirm := some true } =
      ({ success := false, transaction := some "sigW", network := some "solana",
         errorReason := some "settlement_failed", payer := some "PayerX" },
       [SolBroadcast.versioned]) := by
  constructor
  · have h := missing_key_amended.1 sampleBaseNoKey samplePayloadEvm sampleReq sampleEnvOk
      { txHash := some "0xhash", receipt := some true } rfl
    rw [h]
    rfl
  · have h := missing_key_amended.2.2.2 sampleSolPayload sampleSolReq sampleSolDecodeV
      (SolAccountRead.ok 100)
      { vAttempt := VersionedAttempt.sent "sigW", legacySend := some "sigL",
        confirm := some true } "sigW" (by decide) rfl
    rw [h]
    decide

/-! ## C6 -/

/-- Counterexample for C6: a verifying legacy transaction settled by a
keyed facilitator is not broadcast as received: sendAndConfirmTransaction
is handed the facilitator keypair as a signer (re-signing), even though the
settlement then succeeds. -/
theorem sol_settle_claim_false :
    SolanaFacilitator.settle sampleSolKeyed sampleSolPayload sampleSolReq
        solDecodeLegacyOnly (SolAccountRead.ok 100)
        { vAttempt := VersionedAttempt.decodeFail, legacySend := some "sigL",
          confirm := some false } =
      ({ success := true, transaction := some "sigL", network := some "solana",
         errorReason := none, payer := some "PayerX" },
       [SolBroadcast.legacy (some "PayerX") ["FacilKey"]]) := by
  decide

/-- C6 as amended: after a passing re-verification, a successful versioned
send broadcasts the transaction exactly as received and the confirmation
decides the outcome (error maps to settlement_failed with the transaction
id, clean confirmation maps to success with transaction and payer); on any
versioned-path failure — decode failure or send failure alike — settle
falls back to the legacy broadcast, in which a configured facilitator
keypair is passed as a signer and is installed as feePayer whenever the
decoded transaction lacks one, and a legacy send that returns a signature
is subject to the same confirmation mapping. -/
theorem sol_settle_amended
    (sf : SolanaFacilitator) (p : SolanaPaymentPayload) (req : PaymentRequirements)
    (d : SolDecodeEnv) (acct : SolAccountRead) (senv : SolSettleEnv)
    (hv : (SolanaFacilitator.verify sf p req d acct).isValid = true) :
    (∀ sig, senv.vAttempt = VersionedAttempt.sent sig →
      (SolanaFacilitator.settle sf p req d acct senv).2 = [SolBroadcast.versioned]
      ∧ (senv.confirm = some true →
          (SolanaFacilitator.settle sf p req d acct senv).1 =
            { success := false, transaction := some sig, network := some p.network,
              errorReason := some "settlement_failed",
              payer := (SolanaFacilitator.verify sf p req d acct).payer })
      ∧ (senv.confirm = some false →
          (SolanaFacilitator.settle sf p req d acct senv).1 =
            { success := true, transaction := some sig, network := some p.network,
              errorReason := none,
              payer := (SolanaFacilitator.verify sf p req d acct).payer }))
    ∧ (∀ fp, d.legacyDecode = some fp →
        (senv.vAttempt = VersionedAttempt.decodeFail →
          (SolanaFacilitator.settle sf p req d acct senv).2 =
            [SolBroadcast.legacy
              (if sf.keypair.isSome ∧ fp = none then sf.keypair else fp)
              (match sf.keypair with | some k => [k] | none => [])])
        ∧ (senv.vAttempt = VersionedAttempt.sendFail →
          (SolanaFacilitator.settle sf p req d acct senv).2 =
            [SolBroadcast.versioned,
             SolBroadcast.legacy
              (if sf.keypair.isSome ∧ fp = none then sf.keypair else fp)
              (match sf.keypair with | some k => [k] | none => [])])
        ∧ (∀ sig, (senv.vAttempt = VersionedAttempt.decodeFail ∨
              senv.vAttempt = VersionedAttempt.sendFail) →
            senv.legacySend = some sig →
            (senv.confirm = some true →
              (SolanaFacilitator.settle sf p req d acct senv).1 =
                { success := false, transaction := some sig, network := some p.network,
                  errorReason := some "settlement_failed",
                  payer := (SolanaFacilitator.verify sf p req d acct).payer })
            ∧ (senv.confirm = some false →
              (SolanaFacilitator.settle sf p req d acct senv).1 =
                { success := true, transaction := some sig, network := some p.network,
                  errorReason := none,
                  payer := (SolanaFacilitator.verify sf p req d acct).payer }))) := by
  constructor
  · intro sig hva
    refine ⟨?_, ?_, ?_⟩
    · simp [SolanaFacilitator.settle, hv, hva]
    · intro hc
      simp [SolanaFacilitator.settle, hv, hva, solAfterSend, hc]
    · intro hc
      simp [SolanaFacilitator.settle, hv, hva, solAfterSend, hc]
  · intro fp hfp
    refine ⟨?_, ?_, ?_⟩
    · intro hva
      cases hls : senv.legacySend with
      | none => simp [SolanaFacilitator.settle, hv, hva, solLegacyPath, hfp, hls]
      | some sig => simp [SolanaFacilitator.settle, hv, hva, solLegacyPath, hfp, hls]
    · intro hva
      cases hls : senv.legacySend with
      | none => simp [SolanaFacilitator.settle, hv, hva, solLegacyPath, hfp, hls]
      | some sig => simp [SolanaFacilitator.settle, hv, hva, solLegacyPath, hfp, hls]
    · rintro sig (hva | hva) hls
      · refine ⟨?_, ?_⟩ <;> intro hc <;>
          simp [SolanaFacilitator.settle, hv, hva, solLegacyPath, hfp, hls,
            solAfterSend, hc]
      · refine ⟨?_, ?_⟩ <;> intro hc <;>
          simp [SolanaFacilitator.settle, hv, hva, solLegacyPath, hfp, hls,
            solAfterSend, hc]

/-- Witness for C6 (amended): the sample versioned settlement broadcasts
as-is and maps a clean confirmation to success with the payer; a send
failure falls back to the legacy broadcast with the facilitator key as
signer after the versioned attempt, with the clean confirmation again
mapping to success; and a decode failure goes straight to the legacy
broadcast, with an error-carrying confirmation mapping to
settlement_failed with the transaction id and payer attached. -/
theorem sol_settle_amended_witness :
    ((SolanaFacilitator.settle sampleSolKeyed sampleSolPayload sampleSolReq
        sampleSolDecodeV (SolAccountRead.ok 100)
        { vAttempt := VersionedAttempt.sent "sigV", legacySend := none,
          confirm := some false }).2 = [SolBroadcast.versioned]
    ∧ (SolanaFacilitator.settle sampleSolKeyed sampleSolPayload sampleSolReq
        sampleSolDecodeV (SolAccountRead.ok 100)
        { vAttempt := VersionedAttempt.sent "sigV", legacySend := none,
          confirm := some false }).1 =
      { success := true, transaction := some "sigV", network := some "solana",
        errorReason := none, payer := some "PayerX" })
    ∧ ((SolanaFacilitator.settle sampleSolKeyed sampleSolPayload sampleSolReq
        sampleSolDecodeV (SolAccountRead.ok 100)
        { vAttempt := VersionedAttempt.sendFail, legacySend := some "sigL",
          confirm := some false }).2 =
      [SolBroadcast.versioned, SolBroadcast.legacy (some "PayerX") ["FacilKey"]]
    ∧ (SolanaFacilitator.settle sampleSolKeyed sampleSolPayload sampleSolReq
        sampleSolDecodeV (SolAccountRead.ok 100)
        { vAttempt := VersionedAttempt.sendFail, legacySend := some "sigL",
          confirm := some false }).1 =
      { success := true, transaction := some "sigL", network := some "solana",
        errorReason := none, payer := some "PayerX" })
    ∧ ((SolanaFacilitator.settle sampleSolKeyed sampleSolPayload sampleSolReq
        solDecodeLegacyOnly (SolAccountRead.ok 100)
        { vAttempt := VersionedAttempt.decodeFail, legacySend := some "sigF",
          confirm := some true }).2 =
      [SolBroadcast.legacy (some "PayerX") ["FacilKey"]]
    ∧ (SolanaFacilitator.settle sampleSolKeyed sampleSolPayload sampleSolReq
        solDecodeLegacyOnly (SolAccountRead.ok 100)
        { vAttempt := VersionedAttempt.decodeFail, legacySend := some "sigF",
          confirm := some true }).1 =
      { success := false, transaction := some "sigF", network := some "solana",
        errorReason := some "settlement_failed", payer := some "PayerX" }) := by
  refine ⟨?_, ?_, ?_⟩
  · have h := (sol_settle_amended sampleSolKeyed sampleSolPayload sampleSolReq
      sampleSolDecodeV (SolAccountRead.ok 100)
      { vAttempt := VersionedAttempt.sent "sigV", legacySend := none,
        confirm := some false } (by decide)).1 "sigV" rfl
    refine ⟨h.1, ?_⟩
    rw [h.2.2 rfl]
    decide
  · have h := (sol_settle_amended sampleSolKeyed sampleSolPayload sampleSolReq
      sampleSolDecodeV (SolAccountRead.ok 100)
      { vAttempt := VersionedAttempt.sendFail, legacySend := some "sigL",
        confirm := some false } (by decide)).2 (some "PayerX") rfl
    constructor
    · rw [h.2.1 rfl]
      decide
    · rw [(h.2.2 "sigL" (Or.inr rfl) rfl).2 rfl]
      decide
  · have h := (sol_settle_amended sampleSolKeyed sampleSolPayload sampleSolReq
      solDecodeLegacyOnly (SolAccountRead.ok 100)
      { vAttempt := VersionedAttempt.decodeFail, legacySend := some "sigF",
        confirm := some true } (by decide)).2 (some "PayerX") rfl
    constructor
    · rw [h.1 rfl]
      decide
    · rw [(h.2.2 "sigF" (Or.inl rfl) rfl).1 rfl]
      decide

/-! ## C7 -/

/-- Counterexample for C7: registering a fresh resource that repeats one
(network, asset) pair stores it verbatim, so the claimed at-most-one-per-
pair invariant fails after a single register operation; and cataloging the
same resource with the two distinct pairs (net, x:y) and (net:x, y), whose
network-colon-asset join strings collide, keeps only the first pair, so
the claimed both-pairs outcome also fails. -/
theorem catalog_invariant_claim_false :
    registerResource [] dupRes = [dupRes]
    ∧ ¬ ((dupRes.accepts.map fun a => (a.network, a.asset)).Nodup)
    ∧ (catalogFromPayment 1 collideReqB 200 (catalogFromPayment 1 collideReqA 100 [])).map
        (fun e => e.accepts.map fun a => (a.network, a.asset)) = [[("net", "x:y")]] := by
  refine ⟨by decide, by decide, by decide⟩

/-- C7 as amended: provided each registered resource's accepts list has
pairwise distinct join keys (catalog-originated resources are singletons,
so they always do), registerResource preserves the registry invariant of
unique resource URLs and per-entry unique join keys; and cataloging the
same resource twice with two pairs whose join keys differ yields one entry
holding both pairs, the maximum x402Version, the overwritten lastUpdated
and the shallow-merged metadata. -/
theorem catalog_invariant_amended (reg : List DiscoveredResource) (r : DiscoveredResource)
    (hreg : RegInvariant reg) (hr : (r.accepts.map acceptKey).Nodup) :
    RegInvariant (registerResource reg r)
    ∧ catalogFromPayment 1 twoReqB 200 (catalogFromPayment 2 twoReqA 100 []) =
      [twoMergedEntry] := by
  refine ⟨⟨?_, ?_⟩, by decide⟩
  · -- resource URLs stay pairwise distinct
    unfold registerResource
    split
    · next hex =>
      have : (reg.map fun e =>
          (if e.resource == r.resource then
            { e with
              accepts := e.accepts ++ r.accepts.filter
                (fun a => !(decide (acceptKey a ∈ e.accepts.map acceptKey))),
              lastUpdated := r.lastUpdated,
              x402Version := max e.x402Version r.x402Version,
              metadata := match r.metadata with
                | none => e.metadata
                | some m => some (spreadMerge (e.metadata.getD []) m) }
          else e)).map (fun e => e.resource) = reg.map fun e => e.resource := by
        rw [List.map_map]
        apply List.map_congr_left
        intro e _
        dsimp only [Function.comp]
        split <;> rfl
      rw [this]
      exact hreg.1
    · next hne =>
      rw [List.map_append]
      refine List.Nodup.append hreg.1 (List.nodup_singleton _) ?_
      intro x hx1 hx2
      rw [List.mem_map] at hx1
      obtain ⟨e, he, rfl⟩ := hx1
      rw [List.map_singleton, List.mem_singleton] at hx2
      exact hne (List.any_eq_true.mpr ⟨e, he, by rw [beq_iff_eq]; exact hx2⟩)
  · -- each entry keeps pairwise distinct join keys
    unfold registerResource
    split
    · intro e he
      rw [List.mem_map] at he
      obtain ⟨e0, he0, rfl⟩ := he
      dsimp only
      split
      · next heq =>
        rw [List.map_append]
        refine List.Nodup.append (hreg.2 e0 he0)
          (List.Nodup.sublist (List.Sublist.map _ (List.filter_sublist _)) hr) ?_
        intro x hx1 hx2
        rw [List.mem_map] at hx2
        obtain ⟨a, ha, rfl⟩ := hx2
        rw [List.mem_filter] at ha
        have h2 := ha.2
        simp only [Bool.not_eq_true', decide_eq_false_iff_not] at h2
        exact h2 hx1
      · exact hreg.2 e0 he0
    · intro e he
      rw [List.mem_append] at he
      rcases he with h | h
      · exact hreg.2 e h
      · rw [List.mem_singleton] at h
        subst h
        exact hr

/-- Witness for C7 (amended): the merged entry itself registers into the
empty registry and the invariant holds for the result. -/
theorem catalog_invariant_amended_witness :
    RegInvariant (registerResource [] twoMergedEntry) :=
  (catalog_invariant_amended [] twoMergedEntry (by decide) (by decide)).1

/-! ## C8 -/

/-- Counterexample for C8: the empty type string is falsy, so the code
skips the type filter entirely; the claimed filter-by-type semantics would
match no entry (every stored type is http) and report total 0, but the
code returns the entry and total 1. -/
theorem list_resources_claim_false :
    listResources [pageEntry1] "" 20 0 =
      { x402Version := 2, items := [pageEntry1], limit := 20, offset := 0, total := 1 }
    ∧ (pageEntry1.type == "") = false := by
  refine ⟨by decide, by decide⟩

/-- C8 as amended: for every nonempty type string, list filters by type,
the returned items are the window of length limit from offset of a
descending-by-lastUpdated permutation of the filtered entries, and total
counts the filtered entries before slicing (with the empty type string the
filter is skipped); over the three sample resources with distinct
timestamps, limit 1 and offset 1 return exactly the second most recently
updated one with total 3. -/
theorem list_resources_amended (reg : List DiscoveredResource) (type : String)
    (limit offset : Nat) (ht : type ≠ "") :
    (listResources reg type limit offset).items =
      ((sortByLastUpdated (reg.filter fun r => r.type == type)).drop offset).take limit
    ∧ (listResources reg type limit offset).total =
      (reg.filter fun r => r.type == type).length
    ∧ (sortByLastUpdated (reg.filter fun r => r.type == type)).Perm
      (reg.filter fun r => r.type == type)
    ∧ (sortByLastUpdated (reg.filter fun r => r.type == type)).Pairwise
      (fun a b => b.lastUpdated ≤ a.lastUpdated)
    ∧ listResources pageReg "http" 1 1 =
      { x402Version := 2, items := [pageEntry3], limit := 1, offset := 1, total := 3 } := by
  refine ⟨?_, ?_, ?_, ?_, by decide⟩
  · simp [listResources, ht]
  · simp [listResources, ht, sortByLastUpdated]
  · exact List.perm_insertionSort _ _
  · haveI : IsTotal DiscoveredResource (fun a b => b.lastUpdated ≤ a.lastUpdated) :=
      ⟨fun a b => Nat.le_total _ _⟩
    haveI : IsTrans DiscoveredResource (fun a b => b.lastUpdated ≤ a.lastUpdated) :=
      ⟨fun _ _ _ h1 h2 => le_trans h2 h1⟩
    exact List.sorted_insertionSort _ _

/-- Witness for C8 (amended): instantiating at the three-entry registry
with type http, limit 1 and offset 1 gives the second newest entry and
total 3. -/
theorem list_resources_amended_witness :
    (listResources pageReg "http" 1 1).items = [pageEntry3]
    ∧ (listResources pageReg "http" 1 1).total = 3 := by
  have h := list_resources_amended pageReg "http" 1 1 (by decide)
  refine ⟨?_, ?_⟩
  · rw [h.1]
    decide
  · rw [h.2.1]
    decide

/-! ## C9 -/

/-- Counterexample for C9: processing a verify request does modify the
Discovery Catalog. The sample request verifies, and the handler's
discovery side effect grows the empty registry by one entry. -/
theorem verify_purity_claim_false :
    verifyHandlerCatalog
        (BaseFacilitator.verify sampleBaseNoKey samplePayloadEvm sampleReq sampleEnvOk)
        1 sampleReqX 100 [] =
      [{ resource := "https://api.example.com/a", type := "http", x402Version := 1,
         accepts := [{ scheme := "exact", network := "base", amount := "100",
                       asset := "0xusdc", payTo := "0xbbb" }],
         lastUpdated := 100, metadata := none }]
    ∧ verifyHandlerCatalog
        (BaseFacilitator.verify sampleBaseNoKey samplePayloadEvm sampleReq sampleEnvOk)
        1 sampleReqX 100 [] ≠ [] := by
  refine ⟨by decide, by decide⟩

/-- C9 as amended: backend verify is a pure function of the payload,
requirements and chain environment, independent of the facilitator
configuration — two calls with identical inputs and unchanged environment
give identical results; the orchestrator leaves the catalog unchanged
whenever verification fails or the requirements carry no bazaar extension,
but on a successful verification of bazaar-extended requirements the
handler updates the Discovery Catalog (settle, by contrast, never touches
it). -/
theorem verify_purity_amended :
    (∀ (self self' : BaseFacilitator) (p : EvmPaymentPayload)
       (req : PaymentRequirements) (env env' : EvmChainEnv), env = env' →
        BaseFacilitator.verify self p req env = BaseFacilitator.verify self' p req env')
    ∧ (∀ (resp : VerifyResponse) (v : Nat) (req : PaymentRequirementsX) (now : Nat)
         (reg : List DiscoveredResource), resp.isValid = false →
        verifyHandlerCatalog resp v req now reg = reg)
    ∧ (∀ (resp : VerifyResponse) (v : Nat) (req : PaymentRequirementsX) (now : Nat)
         (reg : List DiscoveredResource), req.extensions.bind (fun e => e.bazaar) = none →
        verifyHandlerCatalog resp v req now reg = reg) := by
  refine ⟨?_, ?_, ?_⟩
  · intro self self' p req env env' h
    subst h
    rfl
  · intro resp v req now reg h
    simp [verifyHandlerCatalog, h]
  · intro resp v req now reg h
    simp [verifyHandlerCatalog, catalogFromPayment, extractDiscoveryInfo, h]

/-- Witness for C9 (amended): at the sample inputs the two verify calls
with distinct facilitator configurations but the same environment agree. -/
theorem verify_purity_amended_witness :
    BaseFacilitator.verify sampleBaseNoKey samplePayloadEvm sampleReq sampleEnvOk =
      BaseFacilitator.verify sampleBaseKeyed samplePayloadEvm sampleReq sampleEnvOk :=
  verify_purity_amended.1 sampleBaseNoKey sampleBaseKeyed samplePayloadEvm sampleReq
    sampleEnvOk sampleEnvOk rfl

/-! ## C10 -/

/-- Helper: registerResource preserves the all-http property when the
incoming resource has type http (updates keep the stored type, inserts
store the incoming one). -/
theorem registerResource_allHttp (reg : List DiscoveredResource) (r : DiscoveredResource)
    (hreg : AllHttp reg) (hr : r.type = "http") : AllHttp (registerResource reg r) := by
  unfold registerResource
  split
  · intro e he
    rw [List.mem_map] at he
    obtain ⟨e0, he0, rfl⟩ := he
    dsimp only
    split
    · exact hreg e0 he0
    · exact hreg e0 he0
  · intro e he
    rw [List.mem_append] at he
    rcases he with h | h
    · exact hreg e h
    · rw [List.mem_singleton] at h
      subst h
      exact hr

/-- Counterexample for C10: the empty string is a type value other than
http, yet list with it returns the stored entry and total 1 (the falsy
type skips the filter), not the claimed empty items and total 0. -/
theorem type_filter_claim_false :
    (listResources (catalogFromPayment 1 sampleReqX 100 []) "" 20 0).total = 1
    ∧ (listResources (catalogFromPayment 1 sampleReqX 100 []) "" 20 0).items ≠ [] := by
  refine ⟨by decide, by decide⟩

/-- C10 as amended: every catalog-stored entry has type http; list with
type http keeps every entry (total is the registry size and items are the
pagination window of the sorted registry — the whole registry when offset
is 0 and limit covers it); list with a nonempty type other than http
returns empty items with total 0; and with the empty type string the
filter is skipped altogether. -/
theorem type_filter_amended :
    (∀ (v : Nat) (req : PaymentRequirementsX) (now : Nat) (reg : List DiscoveredResource),
        AllHttp reg → AllHttp (catalogFromPayment v req now reg))
    ∧ (∀ (reg : List DiscoveredResource) (limit offset : Nat), AllHttp reg →
        (listResources reg "http" limit offset).total = reg.length
        ∧ (listResources reg "http" limit offset).items =
            ((sortByLastUpdated reg).drop offset).take limit)
    ∧ (∀ (reg : List DiscoveredResource) (limit : Nat), AllHttp reg →
        reg.length ≤ limit → (listResources reg "http" limit 0).items.Perm reg)
    ∧ (∀ (reg : List DiscoveredResource) (t : String) (limit offset : Nat),
        AllHttp reg → t ≠ "http" → t ≠ "" →
        (listResources reg t limit offset).items = []
        ∧ (listResources reg t limit offset).total = 0) := by
  have hfil : ∀ (reg : List DiscoveredResource), AllHttp reg →
      reg.filter (fun r => r.type == "http") = reg := by
    intro reg hreg
    apply List.filter_eq_self.mpr
    intro a ha
    rw [beq_iff_eq]
    exact hreg a ha
  refine ⟨?_, ?_, ?_, ?_⟩
  · intro v req now reg hreg
    unfold catalogFromPayment
    cases hx : extractDiscoveryInfo v req now with
    | none => exact hreg
    | some r =>
      have hr : r.type = "http" := by
        unfold extractDiscoveryInfo at hx
        cases hb : req.extensions.bind (fun e => e.bazaar) with
        | none => rw [hb] at hx; cases hx
        | some ext =>
          rw [hb] at hx
          dsimp only at hx
          rw [← Option.some.inj hx]
      exact registerResource_allHttp reg r hreg hr
  · intro reg limit offset hreg
    constructor
    · simp [listResources, sortByLastUpdated, hfil reg hreg]
    · simp [listResources, hfil reg hreg]
  · intro reg limit hreg hlen
    have h1 : (listResources reg "http" limit 0).items = (sortByLastUpdated reg).take limit := by
      simp [listResources, hfil reg hreg]
    rw [h1, List.take_of_length_le]
    · exact List.perm_insertionSort _ _
    · rw [sortByLastUpdated, List.length_insertionSort]
      exact hlen
  · intro reg t limit offset hreg ht1 ht2
    have hnil : reg.filter (fun r => r.type == t) = [] := by
      apply List.filter_eq_nil_iff.mpr
      intro a ha
      rw [beq_iff_eq, hreg a ha]
      exact fun h => ht1 h.symm
    constructor
    · simp [listResources, ht2, hnil, sortByLastUpdated]
    · simp [listResources, ht2, hnil, sortByLastUpdated]

/-- Witness for C10 (amended): over the three-entry sample registry, list
with type http reports total 3 and list with another nonempty type returns
nothing. -/
theorem type_filter_amended_witness :
    (listResources pageReg "http" 20 0).total = pageReg.length
    ∧ (listResources pageReg "ws" 20 0).items = []
    ∧ (listResources pageReg "ws" 20 0).total = 0 := by
  have h1 := (type_filter_amended.2.1 pageReg 20 0 (by decide)).1
  have h2 := type_filter_amended.2.2.2 pageReg "ws" 20 0 (by decide) (by decide) (by decide)
  exact ⟨h1, h2.1, h2.2⟩
